import Mathlib

/-!
Verification development for the emergency-alert ingestion/classification
backend.  Python sources under `backend/app` are shallowly embedded here:
pure helpers become Lean functions, machine words are `Nat` with explicit
`% 2^32`, Python `float` inputs relevant to the claims are modelled as `ℚ`
(all comparisons the claims depend on are exact), optional values are
`Option`, raisable code returns `Except`, and the database session is
explicit state passing over lists of rows.
-/

namespace EAS

/-! ### SHA-256 (model of `hashlib.sha256(...).hexdigest()` used by
`backend/app/utils/dedupe.py`), over byte lists, words = `Nat % 2^32`. -/

def M32 : Nat := 4294967296

def rotr (n x : Nat) : Nat := ((x >>> n) ||| (x <<< (32 - n))) % M32

/-- The 64 SHA-256 round constants (FIPS 180-4), in decimal. -/
def sha_K : List Nat :=
  [1116352408, 1899447441, 3049323471, 3921009573, 961987163, 1508970993,
   2453635748, 2870763221, 3624381080, 310598401, 607225278, 1426881987,
   1925078388, 2162078206, 2614888103, 3248222580, 3835390401, 4022224774,
   264347078, 604807628, 770255983, 1249150122, 1555081692, 1996064986,
   2554220882, 2821834349, 2952996808, 3210313671, 3336571891, 3584528711,
   113926993, 338241895, 666307205, 773529912, 1294757372, 1396182291,
   1695183700, 1986661051, 2177026350, 2456956037, 2730485921, 2820302411,
   3259730800, 3345764771, 3516065817, 3600352804, 4094571909, 275423344,
   430227734, 506948616, 659060556, 883997877, 958139571, 1322822218,
   1537002063, 1747873779, 1955562222, 2024104815, 2227730452, 2361852424,
   2428436474, 2756734187, 3204031479, 3329325298]

/-- The eight SHA-256 initial hash values (FIPS 180-4), in decimal. -/
def sha_H0 : List Nat :=
  [1779033703, 3144134277, 1013904242, 2773480762,
   1359893119, 2600822924, 528734635, 1541459225]

def bigSigma0 (x : Nat) : Nat := (rotr 2 x) ^^^ (rotr 13 x) ^^^ (rotr 22 x)

def bigSigma1 (x : Nat) : Nat := (rotr 6 x) ^^^ (rotr 11 x) ^^^ (rotr 25 x)

def smallSigma0 (x : Nat) : Nat := (rotr 7 x) ^^^ (rotr 18 x) ^^^ (x >>> 3)

def smallSigma1 (x : Nat) : Nat := (rotr 17 x) ^^^ (rotr 19 x) ^^^ (x >>> 10)

def chFn (x y z : Nat) : Nat := (x &&& y) ^^^ ((x ^^^ 0xffffffff) &&& z)

def majFn (x y z : Nat) : Nat := (x &&& y) ^^^ (x &&& z) ^^^ (y &&& z)

def padMessage (msg : List Nat) : List Nat :=
  let len := msg.length
  let zeros := (120 - ((len + 1) % 64)) % 64
  let bitLen := len * 8
  msg ++ [0x80] ++ List.replicate zeros 0 ++
    [(bitLen >>> 56) % 256, (bitLen >>> 48) % 256, (bitLen >>> 40) % 256, (bitLen >>> 32) % 256,
     (bitLen >>> 24) % 256, (bitLen >>> 16) % 256, (bitLen >>> 8) % 256, bitLen % 256]

def bytesToWords : List Nat → List Nat
  | a :: b :: c :: d :: rest => (((a * 256 + b) * 256 + c) * 256 + d) :: bytesToWords rest
  | _ => []

def chunk16Aux : Nat → List Nat → List (List Nat)
  | 0, _ => []
  | _, [] => []
  | fuel + 1, x :: rest => ((x :: rest).take 16) :: chunk16Aux fuel ((x :: rest).drop 16)

def chunk16 (l : List Nat) : List (List Nat) := chunk16Aux l.length l

def wStep (w : List Nat) : Nat :=
  let n := w.length
  (smallSigma1 (w.getD (n - 2) 0) + w.getD (n - 7) 0 +
   smallSigma0 (w.getD (n - 15) 0) + w.getD (n - 16) 0) % M32

def extendW : List Nat → Nat → List Nat
  | w, 0 => w
  | w, k + 1 => extendW (w ++ [wStep w]) k

structure Hash8 where
  a : Nat
  b : Nat
  c : Nat
  d : Nat
  e : Nat
  f : Nat
  g : Nat
  h : Nat

def roundStep (w : List Nat) (s : Hash8) (i : Nat) : Hash8 :=
  let t1 := (s.h + bigSigma1 s.e + chFn s.e s.f s.g + sha_K.getD i 0 + w.getD i 0) % M32
  let t2 := (bigSigma0 s.a + majFn s.a s.b s.c) % M32
  { a := (t1 + t2) % M32, b := s.a, c := s.b, d := s.c,
    e := (s.d + t1) % M32, f := s.e, g := s.f, h := s.g }

def compressBlock (hv : List Nat) (block : List Nat) : List Nat :=
  let w := extendW block 48
  let s0 : Hash8 :=
    ⟨hv.getD 0 0, hv.getD 1 0, hv.getD 2 0, hv.getD 3 0,
     hv.getD 4 0, hv.getD 5 0, hv.getD 6 0, hv.getD 7 0⟩
  let s := (List.range 64).foldl (roundStep w) s0
  [(hv.getD 0 0 + s.a) % M32, (hv.getD 1 0 + s.b) % M32,
   (hv.getD 2 0 + s.c) % M32, (hv.getD 3 0 + s.d) % M32,
   (hv.getD 4 0 + s.e) % M32, (hv.getD 5 0 + s.f) % M32,
   (hv.getD 6 0 + s.g) % M32, (hv.getD 7 0 + s.h) % M32]

def sha256Words (msg : List Nat) : List Nat :=
  (chunk16 (bytesToWords (padMessage msg))).foldl compressBlock sha_H0

def hexDigit (n : Nat) : Char :=
  if n < 10 then Char.ofNat (48 + n) else Char.ofNat (87 + n)

def wordHex (w : Nat) : List Char :=
  [hexDigit ((w >>> 28) % 16), hexDigit ((w >>> 24) % 16), hexDigit ((w >>> 20) % 16),
   hexDigit ((w >>> 16) % 16), hexDigit ((w >>> 12) % 16), hexDigit ((w >>> 8) % 16),
   hexDigit ((w >>> 4) % 16), hexDigit (w % 16)]

def sha256Hex (msg : List Nat) : String :=
  String.mk (((sha256Words msg).map wordHex).flatten)

/-- Model of Python `str.encode('utf-8')`: standard UTF-8 byte encoding of
each code point. -/
def utf8Bytes (c : Char) : List Nat :=
  let n := c.toNat
  if n < 0x80 then [n]
  else if n < 0x800 then [0xC0 + n / 64, 0x80 + n % 64]
  else if n < 0x10000 then [0xE0 + n / 4096, 0x80 + (n / 64) % 64, 0x80 + n % 64]
  else [0xF0 + n / 262144, 0x80 + (n / 4096) % 64, 0x80 + (n / 64) % 64, 0x80 + n % 64]

def strBytes (s : String) : List Nat := (s.data.map utf8Bytes).flatten

def sha256HexOfString (s : String) : String := sha256Hex (strBytes s)

/-! ### Python `datetime` (naive or timezone-aware) and the parts of its API
used by `dedupe.generate_natural_key`: `.replace(minute, second, microsecond)`
and `.isoformat()`. -/

structure PyDateTime where
  year : Nat
  month : Nat
  day : Nat
  hour : Nat
  minute : Nat
  second : Nat
  microsecond : Nat
  /-- UTC offset in minutes; `none` models a naive datetime. -/
  tzMinutes : Option Int
deriving DecidableEq, Repr

/-- Python `datetime` field validity ranges (`datetime` constructor invariants). -/
def ValidDT (d : PyDateTime) : Prop :=
  1 ≤ d.year ∧ d.year ≤ 9999 ∧ 1 ≤ d.month ∧ d.month ≤ 12 ∧ 1 ≤ d.day ∧ d.day ≤ 31 ∧
  d.hour ≤ 23 ∧ d.minute ≤ 59 ∧ d.second ≤ 59 ∧ d.microsecond ≤ 999999

instance (d : PyDateTime) : Decidable (ValidDT d) := by
  unfold ValidDT; infer_instance

def pad2 (n : Nat) : String :=
  String.mk [Char.ofNat (48 + (n / 10) % 10), Char.ofNat (48 + n % 10)]

def pad4 (n : Nat) : String :=
  String.mk [Char.ofNat (48 + (n / 1000) % 10), Char.ofNat (48 + (n / 100) % 10),
             Char.ofNat (48 + (n / 10) % 10), Char.ofNat (48 + n % 10)]

def pad6 (n : Nat) : String :=
  String.mk [Char.ofNat (48 + (n / 100000) % 10), Char.ofNat (48 + (n / 10000) % 10),
             Char.ofNat (48 + (n / 1000) % 10), Char.ofNat (48 + (n / 100) % 10),
             Char.ofNat (48 + (n / 10) % 10), Char.ofNat (48 + n % 10)]

def tzSuffix : Option Int → String
  | none => ""
  | some off =>
      let sign := if off < 0 then "-" else "+"
      let a := off.natAbs
      sign ++ pad2 (a / 60) ++ ":" ++ pad2 (a % 60)

/-- Model of `datetime.isoformat()`: `YYYY-MM-DDTHH:MM:SS`, the `.ffffff`
part only when `microsecond ≠ 0`, the `±HH:MM` offset only when aware. -/
def isoformat (d : PyDateTime) : String :=
  pad4 d.year ++ "-" ++ pad2 d.month ++ "-" ++ pad2 d.day ++ "T" ++
  pad2 d.hour ++ ":" ++ pad2 d.minute ++ ":" ++ pad2 d.second ++
  (if d.microsecond = 0 then "" else "." ++ pad6 d.microsecond) ++
  tzSuffix d.tzMinutes

/-! ### `backend/app/utils/dedupe.py` -/

/-- The `rounded = effective_at.replace(minute=minutes, second=0, microsecond=0)`
step of `generate_natural_key`, with `minutes = minute - minute % 10`. -/
def roundTo10 (d : PyDateTime) : PyDateTime :=
  { d with minute := d.minute - d.minute % 10, second := 0, microsecond := 0 }

/-- Python truthiness of an `Optional[str]`: `None` and `""` are falsy. -/
def truthyStrOpt : Option String → Bool
  | none => false
  | some s => !s.isEmpty

/-- The `key_string` local of `generate_natural_key` (the pre-digest string). -/
def keyString (source : String) (provider_id title area : Option String)
    (effective_at : Option PyDateTime) : String :=
  if truthyStrOpt provider_id then
    source ++ "|" ++ provider_id.getD ""
  else
    let rounded_time :=
      match effective_at with
      | some e => isoformat (roundTo10 e)
      | none => ""
    source ++ "|" ++ title.getD "" ++ "|" ++ area.getD "" ++ "|" ++ rounded_time

/-- `dedupe.generate_natural_key`: SHA-256 hex digest of the UTF-8 bytes of
`key_string`. -/
def generate_natural_key (source : String) (provider_id title area : Option String)
    (effective_at : Option PyDateTime) : String :=
  sha256HexOfString (keyString source provider_id title area effective_at)

/-- Python's `str.lower()` (ASCII, which is all the embedded code compares). -/
def pyLower (s : String) : String := String.mk (s.data.map Char.toLower)

/-! ### `backend/app/utils/geo_utils.py`

The `geometry` argument is modelled as a JSON value (`JVal`): the value the
Python code works on after the optional `json.loads` step (a string input
that fails to parse returns `None` in the source and is outside this type).
Python code that can raise (`.lower()` on a non-string `type` field, ordered
comparison against a non-number outside the guarded `try`) is modelled in
`Except Unit`; the `try/except` around the centroid loop catches everything,
so that part is total. -/

inductive JVal where
  | null
  | jbool (b : Bool)
  | num (q : ℚ)
  | str (s : String)
  | arr (xs : List JVal)
  | obj (kvs : List (String × JVal))

/-- Python truthiness of a JSON value. -/
def truthy : JVal → Bool
  | .null => false
  | .jbool b => b
  | .num q => decide (q ≠ 0)
  | .str s => !s.isEmpty
  | .arr xs => !xs.isEmpty
  | .obj kvs => !kvs.isEmpty

/-- `dict.get` on a JSON object (keys are unique; first match). -/
def objGet : List (String × JVal) → String → Option JVal
  | [], _ => none
  | (k, v) :: rest, key => if k = key then some v else objGet rest key

/-- Values Python's ordered comparison against an int literal accepts:
numbers, and `bool` (an `int` subtype, `True = 1`, `False = 0`). -/
def pyNum : JVal → Option ℚ
  | .num q => some q
  | .jbool b => some (if b then 1 else 0)
  | _ => none

def toNumD (v : JVal) : ℚ := (pyNum v).getD 0

def isNull : JVal → Bool
  | .null => true
  | _ => false

/-- `geo_utils.validate_coordinates`, with Python's left-to-right evaluation
of the chained comparisons: a non-number on either side raises (`.error`),
but only once reached. -/
def validate_coordinates (latitude longitude : JVal) : Except Unit Bool :=
  if isNull latitude || isNull longitude then Except.ok false
  else
    match pyNum latitude with
    | none => Except.error ()
    | some la =>
      if ¬ (-90 ≤ la ∧ la ≤ 90) then Except.ok false
      else
        match pyNum longitude with
        | none => Except.error ()
        | some lo =>
          if ¬ (-180 ≤ lo ∧ lo ≤ 180) then Except.ok false
          else Except.ok true

/-- The `geom_type == 'point'` branch body of `extract_point_from_geometry`
(falling out of the branch ends at the final `return None`). -/
def pointBranch (coords : JVal) : Except Unit (Option (ℚ × ℚ)) :=
  match coords with
  | .arr (c0 :: c1 :: _) =>
      match validate_coordinates c1 c0 with
      | .error e => .error e
      | .ok true => .ok (some (toNumD c1, toNumD c0))
      | .ok false => .ok none
  | _ => .ok none

/-- The accumulation loop of the centroid computation: left-to-right, a
raised comparison aborts the loop (and is caught by the surrounding
`except`), invalid vertices are skipped. -/
def sumValid : List JVal → ℚ → ℚ → Nat → Except Unit (ℚ × ℚ × Nat)
  | [], tlat, tlon, n => Except.ok (tlat, tlon, n)
  | p :: rest, tlat, tlon, n =>
      match p with
      | .arr (x :: y :: _) =>
          match validate_coordinates y x with
          | .error e => .error e
          | .ok true => sumValid rest (tlat + toNumD y) (tlon + toNumD x) (n + 1)
          | .ok false => sumValid rest tlat tlon n
      | _ => sumValid rest tlat tlon n

/-- The `try: ... centroid ... except` block of the polygon branch: any
raised error inside is caught and control falls to the final `return None`;
iterating a string or a dict ring yields no list elements (count 0). -/
def centroidFallback (coords : JVal) : Option (ℚ × ℚ) :=
  match coords with
  | .arr (ring :: _) =>
      match ring with
      | .arr pts =>
          match sumValid pts 0 0 0 with
          | .error _ => none
          | .ok (tlat, tlon, n) => if 0 < n then some (tlat / n, tlon / n) else none
      | _ => none
  | _ => none

/-- The `geom_type == 'polygon'` branch body: first vertex of the first ring
when the nested-list guards hold (its validity check may raise), otherwise
the guarded centroid computation. -/
def polyBranch (coords : JVal) : Except Unit (Option (ℚ × ℚ)) :=
  match coords with
  | .arr (JVal.arr (JVal.arr (x :: y :: _) :: _) :: _) =>
      match validate_coordinates y x with
      | .error e => .error e
      | .ok true => .ok (some (toNumD y, toNumD x))
      | .ok false => .ok (centroidFallback coords)
  | _ => .ok (centroidFallback coords)

/-- The `geom_type == 'multipolygon'` branch body: recursive call on
`{'type': 'Polygon', 'coordinates': coords[0]}`, unfolded (re-entry passes
the top truthiness test — the dict has two entries — and lands in the
polygon branch after the `if not coords` check on `coords[0]`). -/
def multiPolyBranch (coords : JVal) : Except Unit (Option (ℚ × ℚ)) :=
  match coords with
  | .arr (fp :: _) => if truthy fp then polyBranch fp else .ok none
  | _ => .ok none

/-- `geometry.get('type', '').lower()`: raises when the field holds a
non-string value. -/
def getTypeLower (kvs : List (String × JVal)) : Except Unit String :=
  match objGet kvs "type" with
  | none => Except.ok ""
  | some (.str s) => Except.ok (pyLower s)
  | some _ => Except.error ()

/-- `geo_utils.extract_point_from_geometry` on a parsed JSON value. -/
def extract_point_from_geometry (g : JVal) : Except Unit (Option (ℚ × ℚ)) :=
  if truthy g = false then .ok none
  else
    match g with
    | .obj kvs =>
        match getTypeLower kvs with
        | .error e => .error e
        | .ok ty =>
            if truthy ((objGet kvs "coordinates").getD JVal.null) = false then .ok none
            else if ty = "point" then
              pointBranch ((objGet kvs "coordinates").getD JVal.null)
            else if ty = "polygon" then
              polyBranch ((objGet kvs "coordinates").getD JVal.null)
            else if ty = "multipolygon" then
              multiPolyBranch ((objGet kvs "coordinates").getD JVal.null)
            else .ok none
    | .arr (c0 :: c1 :: _) =>
        match validate_coordinates c1 c0 with
        | .error e => .error e
        | .ok true => .ok (some (toNumD c1, toNumD c0))
        | .ok false => .ok none
    | _ => .ok none

/-- GeoJSON-style geometry object constructor used in the theorems. -/
def mkGeo (ty : String) (coords : JVal) : JVal :=
  .obj [("type", .str ty), ("coordinates", coords)]

/-- A numeric `[lon, lat]` vertex. -/
def mkVertex (lonLat : ℚ × ℚ) : JVal := .arr [.num lonLat.1, .num lonLat.2]

/-- A ring of numeric `[lon, lat]` vertices. -/
def mkRing (pts : List (ℚ × ℚ)) : JVal := .arr (pts.map mkVertex)

/-! ### Data model (`backend/app/models.py`) -/

/-- One `alerts` row. `id` is the autoincrement primary key, `created_at`
the insert-time server default, modelled as a monotone counter (only its
order matters to the claims). -/
structure Alert where
  id : Nat
  natural_key : String
  source : String
  provider_id : Option String
  title : String
  summary : Option String
  event_type : Option String
  severity : Option String
  urgency : Option String
  area : Option String
  effective_at : Option PyDateTime
  expires_at : Option PyDateTime
  url : Option String
  raw_payload : Option String
  created_at : Nat
deriving DecidableEq, Repr

/-- One `classifications` row. -/
structure Classification where
  alert_id : Nat
  criticality : String
  rationale : String
  model_version : String
deriving DecidableEq, Repr

/-- The normalized dict produced by `normalize_item` (contract documented in
`BaseIngestionService.normalize_item`). -/
structure NormalizedItem where
  source : String
  provider_id : Option String
  title : String
  summary : Option String
  event_type : Option String
  severity : Option String
  urgency : Option String
  area : Option String
  effective_at : Option PyDateTime
  expires_at : Option PyDateTime
  url : Option String
  raw_payload : Option String
deriving DecidableEq, Repr

/-- Database session state: the two tables plus the id / `now()` counters. -/
structure DBState where
  alerts : List Alert
  classifications : List Classification
  nextId : Nat
  clock : Nat
deriving Repr

/-! ### `backend/app/services/ingest_base.py` -/

/-- The natural key `upsert_alert` computes for a normalized item. -/
def alertKey (n : NormalizedItem) : String :=
  generate_natural_key n.source n.provider_id (some n.title) n.area n.effective_at

/-- The `alerts` uniqueness constraint on `natural_key` (`models.py`):
an insert raises `IntegrityError` exactly when the key is present. -/
def hasKey (db : DBState) (key : String) : Bool :=
  db.alerts.any (fun a => a.natural_key == key)

/-- The `Alert(...)` construction inside `upsert_alert`, with the
database-assigned `id` and `created_at`. -/
def mkAlert (db : DBState) (key : String) (n : NormalizedItem) : Alert :=
  { id := db.nextId, natural_key := key, source := n.source,
    provider_id := n.provider_id, title := n.title, summary := n.summary,
    event_type := n.event_type, severity := n.severity, urgency := n.urgency,
    area := n.area, effective_at := n.effective_at, expires_at := n.expires_at,
    url := n.url, raw_payload := n.raw_payload, created_at := db.clock }

/-- How one `upsert_alert` call ended: the normal insert, the
`IntegrityError` handler (`logger.debug`, not an error), or the generic
exception handler (`logger.error`). -/
inductive UpsertLog where
  | inserted
  | duplicate
  | errorOther
deriving DecidableEq, Repr

/-- `BaseIngestionService.upsert_alert`. `fault` models a
non-`IntegrityError` raised by the backend while inserting that alert
(connection failure etc.); it can only fire when no duplicate key exists,
since the uniqueness violation raises first. Both handlers roll the session
back (state unchanged) and return `None`. -/
def upsert_alert (fault : Alert → Bool) (db : DBState) (n : NormalizedItem) :
    Option Alert × DBState × UpsertLog :=
  let key := alertKey n
  let alert := mkAlert db key n
  if hasKey db key then (none, db, .duplicate)
  else if fault alert then (none, db, .errorOther)
  else (some alert,
        { db with alerts := db.alerts ++ [alert],
                  nextId := db.nextId + 1, clock := db.clock + 1 },
        .inserted)

/-- The normalize-and-insert loop of `BaseIngestionService.run`
(items already normalized): returns `new_count` and the final session. -/
def runItems (fault : Alert → Bool) : DBState → List NormalizedItem → Nat × DBState
  | db, [] => (0, db)
  | db, n :: rest =>
      let u := upsert_alert fault db n
      let r := runItems fault u.2.1 rest
      ((if u.1.isSome then 1 else 0) + r.1, r.2)

/-- `BaseIngestionService.run` over a fixed fetched payload: `raw = none`
models a falsy `fetch_raw_data` result (return 0); otherwise extract,
normalize each item (skipping `None`), and upsert. -/
def runService {ρ α : Type} (extract : ρ → List α)
    (normalize : α → Option NormalizedItem) (fault : Alert → Bool)
    (raw : Option ρ) (db : DBState) : Nat × DBState :=
  match raw with
  | none => (0, db)
  | some r => runItems fault db ((extract r).filterMap normalize)

/-! ### `backend/app/services/classify.py` (the live OpenAI version,
lines 177-385; the Ollama variant earlier in the file is commented out). -/

/-- The `{"criticality": ..., "rationale": ...}` dict. -/
structure CRes where
  criticality : String
  rationale : String
deriving DecidableEq, Repr

def prefixAt : List Char → List Char → Bool
  | [], _ => true
  | _ :: _, [] => false
  | c :: cs, d :: ds => c == d && prefixAt cs ds

def subIn : List Char → List Char → Bool
  | needle, [] => needle.isEmpty
  | needle, d :: ds => prefixAt needle (d :: ds) || subIn needle ds

/-- Python's `needle in hay` on strings. -/
def strIn (needle hay : String) : Bool := subIn needle.data hay.data

/-- `classify.classify_by_rules` (lines 227-248). -/
def classify_by_rules (alert : Alert) : CRes :=
  let severity := pyLower (alert.severity.getD "")
  let urgency := pyLower (alert.urgency.getD "")
  let event_type := pyLower (alert.event_type.getD "")
  if strIn "extreme" severity || strIn "severe" severity then
    ⟨"High", "Severe severity level detected."⟩
  else if strIn "immediate" urgency || strIn "warning" urgency then
    ⟨"High", "Immediate urgency detected."⟩
  else if strIn "earthquake" event_type && !(strIn "moderate" severity) then
    ⟨"High", "Earthquake event detected."⟩
  else if strIn "moderate" severity || strIn "advisory" severity then
    ⟨"Medium", "Moderate severity."⟩
  else if strIn "expected" urgency || strIn "watch" urgency || strIn "moderate" urgency then
    ⟨"Medium", "Expected urgency level."⟩
  else
    ⟨"Low", "Low risk – monitoring only."⟩

/-- `classify.classify_alert` (lines 306-326), as the row it persists.
`llmResult` is the validated outcome of the one LLM tier
(`classify_with_llm` returns `None` on any transport / empty-reply /
JSON / enumeration failure); `modelName` is `settings.MODEL_NAME`. -/
def classify_alert (llmResult : Option CRes) (modelName : String) (alert : Alert) :
    Classification :=
  let model_version := if llmResult.isSome then modelName else "rules-fallback"
  let result := llmResult.getD (classify_by_rules alert)
  { alert_id := alert.id, criticality := result.criticality,
    rationale := result.rationale.take 1000, model_version := model_version }

/-- Modelled from the spec: the three-tier engine of §2/§4.6 ("primary LLM →
secondary LLM → deterministic rules"; "Secondary LLM tier: same prompt shape
against a locally hosted model; same failure handling").  `classify.py` has
no secondary tier; this definition follows the spec's words so the source
`classify_alert` can be compared against it. -/
def classify_alert_specTiers (primary secondary : Option CRes)
    (primaryModel secondaryModel : String) (alert : Alert) : Classification :=
  match primary with
  | some r =>
      { alert_id := alert.id, criticality := r.criticality,
        rationale := r.rationale.take 1000, model_version := primaryModel }
  | none =>
      match secondary with
      | some r =>
          { alert_id := alert.id, criticality := r.criticality,
            rationale := r.rationale.take 1000, model_version := secondaryModel }
      | none =>
          let r := classify_by_rules alert
          { alert_id := alert.id, criticality := r.criticality,
            rationale := r.rationale.take 1000, model_version := "rules-fallback" }

/-- An alert with no `classifications` row (the outer-join /
`Classification.id == None` filter). -/
def isUnclassified (db : DBState) (a : Alert) : Bool :=
  db.classifications.all (fun c => c.alert_id != a.id)

/-- `ORDER BY created_at DESC`. -/
def createdGe (a b : Alert) : Prop := b.created_at ≤ a.created_at

instance : DecidableRel createdGe := fun a b => Nat.decLe b.created_at a.created_at

instance : IsTotal Alert createdGe := ⟨fun a b => Nat.le_total b.created_at a.created_at⟩

instance : IsTrans Alert createdGe := ⟨fun _ _ _ h1 h2 => Nat.le_trans h2 h1⟩

/-- The backlog query in `classify_unclassified_alerts`: Alerts with no
Classification row, newest `created_at` first, at most `limit`. -/
def selectUnclassified (db : DBState) (limit : Nat) : List Alert :=
  (List.insertionSort createdGe (db.alerts.filter (isUnclassified db))).take limit

/-- The per-alert loop body: `classify_alert` commits one row. -/
def classifyLoop (llm : Alert → Option CRes) (modelName : String) :
    DBState → List Alert → Nat × DBState
  | db, [] => (0, db)
  | db, a :: rest =>
      let db' := { db with classifications :=
                    db.classifications ++ [classify_alert (llm a) modelName a] }
      let r := classifyLoop llm modelName db' rest
      (1 + r.1, r.2)

/-- `classify.classify_unclassified_alerts` (lines 331-360): one cycle,
returning the classified count and the new state. -/
def classify_unclassified_alerts (llm : Alert → Option CRes) (modelName : String)
    (limit : Nat) (db : DBState) : Nat × DBState :=
  let unclassified := selectUnclassified db limit
  if unclassified.isEmpty then (0, db)
  else classifyLoop llm modelName db unclassified

/-! ### `backend/app/services/ingest_usgs_eq.py` -/

structure USGSProps where
  mag : Option ℚ
  place : Option String
  time : Option Int
  url : Option String
deriving Repr

structure USGSFeature where
  id : Option String
  properties : USGSProps
deriving Repr

/-- `IngestUSGSEarthquakes.normalize_item` (lines 70-120).  `fromMs` models
`datetime.fromtimestamp(ms/1000).replace(tzinfo=utc)`, `now` models
`utc_now()`, `magStr` the f-string rendering of the float magnitude and
`dumps` the `json.dumps` of the raw feature — no claim inspects any of
those values.  All numeric comparisons are exact, as in the source. -/
def usgs_normalize_item (fromMs : Int → PyDateTime) (now : PyDateTime)
    (magStr : ℚ → String) (dumps : USGSFeature → String)
    (raw : USGSFeature) : Option NormalizedItem :=
  let props := raw.properties
  let magnitude := props.mag
  let place := props.place.getD "Unknown location"
  let mag_display :=
    match magnitude with
    | some m => "M" ++ magStr m
    | none => "M?"
  let severity :=
    match magnitude with
    | some m => if 6 ≤ m then "Severe" else if mkRat 9 2 ≤ m then "Moderate" else "Minor"
    | none => "Minor"
  let effective_at :=
    match props.time with
    | some t => if t ≠ 0 then fromMs t else now
    | none => now
  some
    { source := "USGS_Earthquakes",
      provider_id := raw.id,
      title := (mag_display ++ " Earthquake — " ++ place).take 500,
      summary := some ("Magnitude " ++
        (match magnitude with | some m => magStr m | none => "?") ++
        " earthquake detected."),
      event_type := some "Earthquake",
      severity := some severity,
      urgency := some "Immediate",
      area := some (place.take 500),
      effective_at := some effective_at,
      expires_at := none,
      url := props.url,
      raw_payload := some (dumps raw) }

/-! ### Claim C10 -/

/-- C10: `generate_natural_key` with `provider_id = ""` produces the same
key as with `provider_id` absent — the `if provider_id:` truthiness test
sends an empty-string native identifier down the content-based path. -/
theorem C10_empty_provider_id_is_content_key (source : String)
    (title area : Option String) (effective_at : Option PyDateTime) :
    generate_natural_key source (some "") title area effective_at =
      generate_natural_key source none title area effective_at := rfl

/-! ### Claim C4 -/

/-- The magnitude-3.0 USGS earthquake feature of the spec's §8 scenario. -/
def rawC4 : USGSFeature :=
  ⟨some "us7000abcd", ⟨some 3, some "10km W of Somewhere", some 1700000000000, none⟩⟩

def dtC4 : PyDateTime := ⟨2026, 1, 1, 0, 0, 0, 0, some 0⟩

/-- The normalized record for `rawC4`. -/
def nC4 : NormalizedItem :=
  (usgs_normalize_item (fun _ => dtC4) dtC4 (fun _ => "3.0") (fun _ => "{}") rawC4).getD
    ⟨"", none, "", none, none, none, none, none, none, none, none, none⟩

/-- The Alert row `upsert_alert` would build for `nC4`. -/
def alertC4 : Alert := mkAlert ⟨[], [], 0, 0⟩ (alertKey nC4) nC4

/-- C4 counterexample: the magnitude-3.0 earthquake does normalize with
severity "Minor", but the rule tier classifies it "High" (its urgency is
"Immediate" and its event type is "Earthquake"), not "Low" as claimed. -/
theorem C4_counterexample :
    nC4.severity = some "Minor" ∧ (classify_by_rules alertC4).criticality ≠ "Low" := by
  constructor
  · decide
  · decide

/-- C4 (amended): a USGS earthquake item with magnitude 3.0 is normalized
with severity "Minor", urgency "Immediate" and event type "Earthquake", and
with the LLM tier returning nothing the rule tier classifies it "High"
(the urgency rule fires), with model_version "rules-fallback". -/
theorem C4_amended :
    nC4.severity = some "Minor" ∧ nC4.urgency = some "Immediate" ∧
    nC4.event_type = some "Earthquake" ∧
    (classify_alert none "gpt-3.5-turbo" alertC4).criticality = "High" ∧
    (classify_alert none "gpt-3.5-turbo" alertC4).model_version = "rules-fallback" := by
  refine ⟨by decide, by decide, by decide, by decide, by decide⟩

/-! ### Claim C8 -/

def alertC8 : Alert :=
  ⟨0, "k", "NWS", none, "calm advisory-free notice", none, none, none, none, none,
   none, none, none, none, 0⟩

/-- C8 counterexample: the engine does not attempt a secondary LLM tier.
On an alert the rules classify "Low", with the primary tier failed and a
(hypothetical) secondary tier succeeding with "High", the source
`classify_alert` still persists the rules result — it differs from the
spec's three-tier engine at this input. -/
theorem C8_counterexample :
    classify_alert none "gpt-3.5-turbo" alertC8 ≠
      classify_alert_specTiers none (some ⟨"High", "secondary says high"⟩)
        "gpt-3.5-turbo" "llama3.2:3b-instruct-q4" alertC8 := by
  intro h
  have h1 : (classify_alert none "gpt-3.5-turbo" alertC8).criticality = "Low" := rfl
  have h2 : (classify_alert_specTiers none (some ⟨"High", "secondary says high"⟩)
      "gpt-3.5-turbo" "llama3.2:3b-instruct-q4" alertC8).criticality = "High" := rfl
  rw [h] at h1
  rw [h1] at h2
  simp at h2

/-- C8 (amended): when the primary (and only) LLM tier fails,
`classify_alert` falls directly to the deterministic rule tier — it behaves
exactly like the spec's tiered engine with the secondary tier always absent,
and persists model_version "rules-fallback". -/
theorem C8_amended : ∀ (alert : Alert) (modelName secondaryModel : String),
    classify_alert none modelName alert =
      classify_alert_specTiers none none modelName secondaryModel alert ∧
    (classify_alert none modelName alert).model_version = "rules-fallback" :=
  fun _ _ _ => ⟨rfl, rfl⟩

/-! ### Claim C7 -/

/-- Condition of the first High rule (severity contains "extreme"/"severe"). -/
def sevHighCond (a : Alert) : Bool :=
  strIn "extreme" (pyLower (a.severity.getD "")) ||
  strIn "severe" (pyLower (a.severity.getD ""))

/-- Condition of the second High rule (urgency contains "immediate"/"warning"). -/
def urgHighCond (a : Alert) : Bool :=
  strIn "immediate" (pyLower (a.urgency.getD "")) ||
  strIn "warning" (pyLower (a.urgency.getD ""))

/-- Condition of the third High rule (earthquake event, non-moderate severity). -/
def eqHighCond (a : Alert) : Bool :=
  strIn "earthquake" (pyLower (a.event_type.getD "")) &&
  !(strIn "moderate" (pyLower (a.severity.getD "")))

/-- Condition of the first Medium rule (severity contains "moderate"/"advisory"). -/
def sevMedCond (a : Alert) : Bool :=
  strIn "moderate" (pyLower (a.severity.getD "")) ||
  strIn "advisory" (pyLower (a.severity.getD ""))

/-- Condition of the second Medium rule (urgency contains
"expected"/"watch"/"moderate"). -/
def urgMedCond (a : Alert) : Bool :=
  strIn "expected" (pyLower (a.urgency.getD "")) ||
  strIn "watch" (pyLower (a.urgency.getD "")) ||
  strIn "moderate" (pyLower (a.urgency.getD ""))

/-- `classify_by_rules` as the ordered first-match-wins cascade of its five
rule conditions. -/
theorem classify_by_rules_cascade (a : Alert) :
    classify_by_rules a =
      if sevHighCond a then ⟨"High", "Severe severity level detected."⟩
      else if urgHighCond a then ⟨"High", "Immediate urgency detected."⟩
      else if eqHighCond a then ⟨"High", "Earthquake event detected."⟩
      else if sevMedCond a then ⟨"Medium", "Moderate severity."⟩
      else if urgMedCond a then ⟨"Medium", "Expected urgency level."⟩
      else ⟨"Low", "Low risk – monitoring only."⟩ := rfl

/-- C7: the rule tier is total (always one of High/Medium/Low), evaluates
the High rules before the Medium rules with the first matching rule winning,
and when the LLM tier fails the persisted model_version is the constant
"rules-fallback". -/
theorem C7_rule_tier_total_and_ordered :
    (∀ a : Alert, (classify_by_rules a).criticality = "High" ∨
        (classify_by_rules a).criticality = "Medium" ∨
        (classify_by_rules a).criticality = "Low")
  ∧ (∀ a : Alert, sevHighCond a = true → (classify_by_rules a).criticality = "High")
  ∧ (∀ a : Alert, urgHighCond a = true → (classify_by_rules a).criticality = "High")
  ∧ (∀ a : Alert, eqHighCond a = true → (classify_by_rules a).criticality = "High")
  ∧ (∀ a : Alert, sevHighCond a = false → urgHighCond a = false →
        eqHighCond a = false → sevMedCond a = true →
        (classify_by_rules a).criticality = "Medium")
  ∧ (∀ a : Alert, sevHighCond a = false → urgHighCond a = false →
        eqHighCond a = false → sevMedCond a = false → urgMedCond a = true →
        (classify_by_rules a).criticality = "Medium")
  ∧ (∀ a : Alert, sevHighCond a = false → urgHighCond a = false →
        eqHighCond a = false → sevMedCond a = false → urgMedCond a = false →
        (classify_by_rules a).criticality = "Low")
  ∧ (∀ (a : Alert) (modelName : String),
        (classify_alert none modelName a).model_version = "rules-fallback" ∧
        (classify_alert none modelName a).criticality =
          (classify_by_rules a).criticality) := by
  refine ⟨?_, ?_, ?_, ?_, ?_, ?_, ?_, ?_⟩
  · intro a
    rw [classify_by_rules_cascade]
    by_cases h1 : sevHighCond a <;> by_cases h2 : urgHighCond a <;>
      by_cases h3 : eqHighCond a <;> by_cases h4 : sevMedCond a <;>
      by_cases h5 : urgMedCond a <;> simp [h1, h2, h3, h4, h5]
  · intro a h; rw [classify_by_rules_cascade]; simp [h]
  · intro a h
    rw [classify_by_rules_cascade]
    by_cases h1 : sevHighCond a <;> simp [h1, h]
  · intro a h
    rw [classify_by_rules_cascade]
    by_cases h1 : sevHighCond a <;> by_cases h2 : urgHighCond a <;> simp [h1, h2, h]
  · intro a h1 h2 h3 h4; rw [classify_by_rules_cascade]; simp [h1, h2, h3, h4]
  · intro a h1 h2 h3 h4 h5; rw [classify_by_rules_cascade]; simp [h1, h2, h3, h4, h5]
  · intro a h1 h2 h3 h4 h5; rw [classify_by_rules_cascade]; simp [h1, h2, h3, h4, h5]
  · intro a modelName; exact ⟨rfl, rfl⟩

/-- An alert whose severity is "Moderate" only (Medium via the first Medium
rule) and one with nothing set (Low), instantiating the conditioned parts
of `C7_rule_tier_total_and_ordered`. -/
theorem C7_witness :
    (classify_by_rules ⟨1, "k", "NWS", none, "t", none, none, some "Moderate",
        none, none, none, none, none, none, 0⟩).criticality = "Medium" ∧
    (classify_by_rules ⟨2, "k2", "NWS", none, "t", none, none, none, none, none,
        none, none, none, none, 0⟩).criticality = "Low" ∧
    (classify_by_rules ⟨3, "k3", "NWS", none, "t", none, none, some "Severe",
        none, none, none, none, none, none, 0⟩).criticality = "High" := by
  refine ⟨?_, ?_, ?_⟩
  · exact C7_rule_tier_total_and_ordered.2.2.2.2.1 _ (by decide) (by decide)
      (by decide) (by decide)
  · exact C7_rule_tier_total_and_ordered.2.2.2.2.2.2.1 _ (by decide) (by decide)
      (by decide) (by decide) (by decide)
  · exact C7_rule_tier_total_and_ordered.2.1 _ (by decide)

/-! ### Claim C2 -/

/-- `upsert_alert` on a duplicate key: the IntegrityError handler. -/
theorem upsert_dup_eq (fault : Alert → Bool) (db : DBState) (n : NormalizedItem)
    (h : hasKey db (alertKey n) = true) :
    upsert_alert fault db n = (none, db, UpsertLog.duplicate) := by
  simp only [upsert_alert]
  rw [if_pos h]

/-- `upsert_alert` on a fresh key with a faulting backend: the generic
exception handler. -/
theorem upsert_fault_eq (fault : Alert → Bool) (db : DBState) (n : NormalizedItem)
    (h1 : hasKey db (alertKey n) = false)
    (h2 : fault (mkAlert db (alertKey n) n) = true) :
    upsert_alert fault db n = (none, db, UpsertLog.errorOther) := by
  simp only [upsert_alert]
  rw [if_neg (by simp [h1]), if_pos h2]

/-- `upsert_alert` on a fresh key with a healthy backend: the insert. -/
theorem upsert_insert_eq (fault : Alert → Bool) (db : DBState) (n : NormalizedItem)
    (h1 : hasKey db (alertKey n) = false)
    (h2 : fault (mkAlert db (alertKey n) n) = false) :
    upsert_alert fault db n =
      (some (mkAlert db (alertKey n) n),
       { db with alerts := db.alerts ++ [mkAlert db (alertKey n) n],
                 nextId := db.nextId + 1, clock := db.clock + 1 },
       UpsertLog.inserted) := by
  simp only [upsert_alert]
  rw [if_neg (by simp [h1]), if_neg (by simp [h2])]

/-- C2: a duplicate natural key makes `upsert_alert` leave the session
unchanged (the existing row is never overwritten), return `None`, and take
the expected-duplicate handler rather than the error handler; a
non-IntegrityError insert failure rolls back only that item; and whenever
`upsert_alert` returns `None`, the `run` loop result over the remaining
items is unchanged — the pipeline continues. -/
theorem C2_duplicate_is_noop :
    (∀ (fault : Alert → Bool) (db : DBState) (n : NormalizedItem),
        hasKey db (alertKey n) = true →
        upsert_alert fault db n = (none, db, UpsertLog.duplicate))
  ∧ (∀ (fault : Alert → Bool) (db : DBState) (n : NormalizedItem),
        hasKey db (alertKey n) = false →
        fault (mkAlert db (alertKey n) n) = true →
        upsert_alert fault db n = (none, db, UpsertLog.errorOther))
  ∧ UpsertLog.duplicate ≠ UpsertLog.errorOther
  ∧ (∀ (fault : Alert → Bool) (db : DBState) (n : NormalizedItem)
        (rest : List NormalizedItem),
        (upsert_alert fault db n).1 = none →
        runItems fault db (n :: rest) = runItems fault db rest) := by
  refine ⟨?_, ?_, by decide, ?_⟩
  · intro fault db n h
    exact upsert_dup_eq fault db n h
  · intro fault db n h hf
    exact upsert_fault_eq fault db n h hf
  · intro fault db n rest h
    have hdb : (upsert_alert fault db n).2.1 = db := by
      by_cases h1 : hasKey db (alertKey n)
      · rw [upsert_dup_eq fault db n h1]
      · by_cases h2 : fault (mkAlert db (alertKey n) n)
        · rw [upsert_fault_eq fault db n (by simpa using h1) h2]
        · rw [upsert_insert_eq fault db n (by simpa using h1)
            (by simpa using h2)] at h
          simp at h
    have hc : runItems fault db (n :: rest) =
        ((if (upsert_alert fault db n).1.isSome then 1 else 0) +
          (runItems fault (upsert_alert fault db n).2.1 rest).1,
         (runItems fault (upsert_alert fault db n).2.1 rest).2) := rfl
    rw [hc, h, hdb]
    simp

/-- A normalized item with a native provider id, and a session already
holding its row, instantiating the three conditioned parts of C2. -/
def nW : NormalizedItem :=
  ⟨"USGS_Earthquakes", some "us6000abcd", "M5.0 Earthquake — somewhere", none,
   some "Earthquake", some "Moderate", some "Immediate", some "somewhere",
   some dtC4, none, none, none⟩

def dbEmpty : DBState := ⟨[], [], 0, 0⟩

def dbW : DBState := ⟨[mkAlert dbEmpty (alertKey nW) nW], [], 1, 1⟩

/-- The fault-free backend (no non-IntegrityError insert failures). -/
def noFault : Alert → Bool := fun _ => false

/-- A backend whose every insert raises a non-IntegrityError failure. -/
def allFault : Alert → Bool := fun _ => true

theorem C2_witness :
    upsert_alert noFault dbW nW = (none, dbW, UpsertLog.duplicate) ∧
    upsert_alert allFault dbEmpty nW = (none, dbEmpty, UpsertLog.errorOther) ∧
    runItems noFault dbW [nW] = runItems noFault dbW [] := by
  have h1 : hasKey dbW (alertKey nW) = true := by
    simp [dbW, hasKey, mkAlert, dbEmpty]
  refine ⟨C2_duplicate_is_noop.1 _ dbW nW h1,
          C2_duplicate_is_noop.2.1 _ dbEmpty nW rfl rfl,
          C2_duplicate_is_noop.2.2.2 _ dbW nW []
            (by rw [C2_duplicate_is_noop.1 _ dbW nW h1])⟩

/-! ### Claim C5 -/

/-- C5: the backlog scan selects only Alerts with no Classification row
(and only stored ones), at most `limit` of them, ordered by `created_at`
descending; an Alert with any Classification row is never selected; and
when every stored Alert is classified the cycle returns count 0 and writes
nothing. -/
theorem C5_classify_at_most_once :
    (∀ (db : DBState) (limit : Nat) (a : Alert),
        a ∈ selectUnclassified db limit →
        isUnclassified db a = true ∧ a ∈ db.alerts)
  ∧ (∀ (db : DBState) (limit : Nat), (selectUnclassified db limit).length ≤ limit)
  ∧ (∀ (db : DBState) (limit : Nat),
        (selectUnclassified db limit).Sorted createdGe)
  ∧ (∀ (db : DBState) (limit : Nat) (a : Alert) (c : Classification),
        c ∈ db.classifications → c.alert_id = a.id →
        a ∉ selectUnclassified db limit)
  ∧ (∀ (db : DBState) (limit : Nat) (llm : Alert → Option CRes)
        (modelName : String),
        (∀ a ∈ db.alerts, isUnclassified db a = false) →
        classify_unclassified_alerts llm modelName limit db = (0, db)) := by
  have hsel : ∀ (db : DBState) (limit : Nat) (a : Alert),
      a ∈ selectUnclassified db limit → isUnclassified db a = true ∧ a ∈ db.alerts := by
    intro db limit a ha
    have h1 : a ∈ List.insertionSort createdGe (db.alerts.filter (isUnclassified db)) :=
      List.take_subset _ _ ha
    have h2 : a ∈ db.alerts.filter (isUnclassified db) :=
      (List.mem_insertionSort createdGe).mp h1
    have h3 := List.mem_filter.mp h2
    exact ⟨h3.2, h3.1⟩
  refine ⟨hsel, ?_, ?_, ?_, ?_⟩
  · intro db limit
    exact List.length_take_le limit _
  · intro db limit
    exact List.Pairwise.sublist (List.take_sublist _ _)
      (List.sorted_insertionSort createdGe _)
  · intro db limit a c hc hid ha
    have h := (hsel db limit a ha).1
    have := List.all_eq_true.mp h c hc
    simp [hid] at this
  · intro db limit llm modelName h
    have hf : db.alerts.filter (isUnclassified db) = [] := by
      rw [List.filter_eq_nil_iff]
      intro a ha
      simp [h a ha]
    simp [classify_unclassified_alerts, selectUnclassified, hf]

def dbC5 : DBState :=
  ⟨[⟨1, "k1", "NWS", none, "t", none, none, none, none, none, none, none, none, none, 3⟩],
   [⟨1, "Low", "r", "rules-fallback"⟩], 2, 4⟩

theorem C5_witness :
    ((1 : Nat) ∉ (selectUnclassified dbC5 10).map (fun a => a.id)) ∧
    classify_unclassified_alerts (fun _ => none) "m" 10 dbC5 = (0, dbC5) := by
  constructor
  · intro hmem
    rw [List.mem_map] at hmem
    obtain ⟨a, ha, hid⟩ := hmem
    exact C5_classify_at_most_once.2.2.2.1 dbC5 10 a
      ⟨1, "Low", "r", "rules-fallback"⟩ (by simp [dbC5]) (by simp [hid]) ha
  · exact C5_classify_at_most_once.2.2.2.2 dbC5 10 _ "m" (by decide)

/-! ### Claim C9 -/

theorem hasKey_upsert_mono (fault : Alert → Bool) (db : DBState)
    (n : NormalizedItem) (k : String) (h : hasKey db k = true) :
    hasKey (upsert_alert fault db n).2.1 k = true := by
  by_cases h1 : hasKey db (alertKey n)
  · rw [upsert_dup_eq fault db n h1]; exact h
  · by_cases h2 : fault (mkAlert db (alertKey n) n)
    · rw [upsert_fault_eq fault db n (by simpa using h1) h2]; exact h
    · rw [upsert_insert_eq fault db n (by simpa using h1) (by simpa using h2)]
      simp only [hasKey] at h ⊢
      rw [List.any_append]
      simp [h]

theorem runItems_hasKey_mono (fault : Alert → Bool)
    (items : List NormalizedItem) :
    ∀ (db : DBState) (k : String), hasKey db k = true →
      hasKey (runItems fault db items).2 k = true := by
  induction items with
  | nil => intro db k h; simpa [runItems] using h
  | cons n rest ih =>
      intro db k h
      simp only [runItems]
      exact ih _ _ (hasKey_upsert_mono fault db n k h)

theorem upsert_self_hasKey (fault : Alert → Bool) (db : DBState)
    (n : NormalizedItem) (hf : fault (mkAlert db (alertKey n) n) = false) :
    hasKey (upsert_alert fault db n).2.1 (alertKey n) = true := by
  by_cases h1 : hasKey db (alertKey n)
  · rw [upsert_dup_eq fault db n h1]; exact h1
  · rw [upsert_insert_eq fault db n (by simpa using h1) hf]
    simp only [hasKey]
    rw [List.any_append]
    simp [mkAlert]

theorem runItems_key_present (items : List NormalizedItem) :
    ∀ (db : DBState) (n : NormalizedItem), n ∈ items →
      hasKey (runItems noFault db items).2 (alertKey n) = true := by
  induction items with
  | nil => intro db n h; cases h
  | cons m rest ih =>
      intro db n h
      simp only [runItems]
      rcases List.mem_cons.mp h with h | h
      · subst h
        exact runItems_hasKey_mono noFault rest _ _
          (upsert_self_hasKey noFault db n rfl)
      · exact ih _ n h

theorem runItems_all_dup (items : List NormalizedItem) :
    ∀ db : DBState, (∀ n ∈ items, hasKey db (alertKey n) = true) →
      runItems noFault db items = (0, db) := by
  induction items with
  | nil => intro db _; rfl
  | cons n rest ih =>
      intro db h
      have hu : upsert_alert noFault db n = (none, db, UpsertLog.duplicate) :=
        upsert_dup_eq noFault db n (h n (List.mem_cons_self n rest))
      simp only [runItems, hu]
      have := ih db (fun m hm => h m (List.mem_cons_of_mem n hm))
      simp [this]

theorem hasKey_false_not_mem (db : DBState) (k : String)
    (h : hasKey db k = false) :
    k ∉ db.alerts.map (fun a => a.natural_key) := by
  intro hmem
  rw [List.mem_map] at hmem
  obtain ⟨a, ha, hk⟩ := hmem
  have : db.alerts.any (fun a => a.natural_key == k) = true :=
    List.any_eq_true.mpr ⟨a, ha, by simp [hk]⟩
  rw [hasKey] at h
  rw [h] at this
  cases this

theorem runItems_nodup_keys (items : List NormalizedItem) :
    ∀ db : DBState, (db.alerts.map (fun a => a.natural_key)).Nodup →
      ((runItems noFault db items).2.alerts.map (fun a => a.natural_key)).Nodup := by
  induction items with
  | nil => intro db h; simpa [runItems] using h
  | cons n rest ih =>
      intro db h
      simp only [runItems]
      apply ih
      by_cases h1 : hasKey db (alertKey n)
      · rw [upsert_dup_eq noFault db n h1]; exact h
      · rw [upsert_insert_eq noFault db n (by simpa using h1) rfl]
        simp only [List.map_append, List.map_cons, List.map_nil]
        rw [List.nodup_append]
        refine ⟨h, List.nodup_singleton _, ?_⟩
        intro k hk hk'
        simp only [List.mem_singleton] at hk'
        subst hk'
        exact hasKey_false_not_mem db _ (by simpa using h1) (by simpa [mkAlert] using hk)

/-- C9: over a fixed fetched payload, a fault-free run is idempotent — the
second run of the same pipeline inserts 0 new rows and leaves the store
unchanged — and, starting from a store with unique natural keys, the first
run inserts each distinct Alert at most once (key uniqueness is
preserved). -/
theorem C9_run_idempotent {ρ α : Type} (extract : ρ → List α)
    (normalize : α → Option NormalizedItem) (raw : Option ρ) (db0 : DBState) :
    runService extract normalize noFault raw
        (runService extract normalize noFault raw db0).2 =
      (0, (runService extract normalize noFault raw db0).2)
  ∧ ((db0.alerts.map (fun a => a.natural_key)).Nodup →
      ((runService extract normalize noFault raw db0).2.alerts.map
        (fun a => a.natural_key)).Nodup) := by
  cases raw with
  | none => exact ⟨rfl, fun h => h⟩
  | some r =>
      constructor
      · simp only [runService]
        apply runItems_all_dup
        intro n hn
        exact runItems_key_present _ db0 n hn
      · intro h
        simp only [runService]
        exact runItems_nodup_keys _ db0 h

theorem C9_witness :
    runService (fun _ : Unit => [(), ()]) (fun _ => some nW) noFault
        (some ())
        (runService (fun _ : Unit => [(), ()]) (fun _ => some nW) noFault
          (some ()) dbEmpty).2 =
      (0, (runService (fun _ : Unit => [(), ()]) (fun _ => some nW) noFault
        (some ()) dbEmpty).2)
  ∧ ((runService (fun _ : Unit => [(), ()]) (fun _ => some nW) noFault
        (some ()) dbEmpty).2.alerts.map (fun a => a.natural_key)).Nodup := by
  refine ⟨(C9_run_idempotent _ _ _ _).1,
          (C9_run_idempotent _ _ _ _).2 (by decide)⟩

/-! ### Claim C3 -/

/-- The in-range test `validate_coordinates` computes on a numeric
(lat, lon) pair. -/
def inRangeQ (lat lon : ℚ) : Bool :=
  decide (-90 ≤ lat) && decide (lat ≤ 90) && decide (-180 ≤ lon) && decide (lon ≤ 180)

theorem validate_num (lat lon : ℚ) :
    validate_coordinates (JVal.num lat) (JVal.num lon) =
      Except.ok (inRangeQ lat lon) := by
  simp only [validate_coordinates, isNull, pyNum, inRangeQ, Bool.or_self,
    Bool.false_or, Bool.or_false]
  by_cases h1 : -90 ≤ lat <;> by_cases h2 : lat ≤ 90 <;>
    by_cases h3 : -180 ≤ lon <;> by_cases h4 : lon ≤ 180 <;>
    simp [h1, h2, h3, h4]

/-- Modelled from the spec (§4.1): "Polygon/multi-polygon: representative
point = arithmetic centroid of the outer ring's valid vertices (fallback:
first valid vertex if centroid computation yields zero valid points)" — when
the centroid computation finds zero valid vertices there is no valid vertex
to fall back to, so the result is absent.  Vertices are `[lon, lat]` pairs,
the result `(lat, lon)`. -/
def spec_polygon_representative (pts : List (ℚ × ℚ)) : Option (ℚ × ℚ) :=
  let valid := pts.filter (fun p => inRangeQ p.2 p.1)
  if valid.length ≠ 0 then
    some ((valid.map (fun p => p.2)).sum / valid.length,
          (valid.map (fun p => p.1)).sum / valid.length)
  else none

theorem sumValid_mkRing (pts : List (ℚ × ℚ)) : ∀ (tlat tlon : ℚ) (n : Nat),
    sumValid (pts.map mkVertex) tlat tlon n =
      Except.ok
        (tlat + ((pts.filter (fun p => inRangeQ p.2 p.1)).map (fun p => p.2)).sum,
         tlon + ((pts.filter (fun p => inRangeQ p.2 p.1)).map (fun p => p.1)).sum,
         n + (pts.filter (fun p => inRangeQ p.2 p.1)).length) := by
  induction pts with
  | nil => intro tlat tlon n; simp [sumValid]
  | cons p rest ih =>
      intro tlat tlon n
      simp only [List.map_cons, sumValid, mkVertex, validate_num]
      by_cases h : inRangeQ p.2 p.1
      · rw [h, ih, List.filter_cons, if_pos h]
        simp only [List.map_cons, List.sum_cons, List.length_cons,
          toNumD, pyNum, Option.getD_some]
        refine congrArg Except.ok ?_
        simp only [Prod.mk.injEq]
        refine ⟨by ring, by ring, by omega⟩
      · rw [Bool.not_eq_true] at h
        rw [h, List.filter_cons, if_neg (by simp [h])]
        exact ih tlat tlon n

theorem polyBranch_mkRing (p : ℚ × ℚ) (rest : List (ℚ × ℚ)) :
    polyBranch (JVal.arr [mkRing (p :: rest)]) =
      if inRangeQ p.2 p.1 then Except.ok (some (p.2, p.1))
      else Except.ok (spec_polygon_representative (p :: rest)) := by
  have hshape : mkRing (p :: rest) =
      JVal.arr (JVal.arr [JVal.num p.1, JVal.num p.2] :: rest.map mkVertex) := rfl
  rw [hshape]
  simp only [polyBranch, validate_num]
  by_cases h : inRangeQ p.2 p.1
  · rw [h]; simp [toNumD, pyNum]
  · rw [Bool.not_eq_true] at h
    rw [h]
    refine congrArg Except.ok ?_
    have hc : centroidFallback
        (JVal.arr [JVal.arr (JVal.arr [JVal.num p.1, JVal.num p.2] :: rest.map mkVertex)]) =
        spec_polygon_representative (p :: rest) := by
      have hlist : JVal.arr [JVal.num p.1, JVal.num p.2] :: rest.map mkVertex =
          (p :: rest).map mkVertex := rfl
      simp only [centroidFallback, hlist, sumValid_mkRing]
      simp only [spec_polygon_representative, zero_add]
      by_cases hn : (List.filter (fun q => inRangeQ q.2 q.1) (p :: rest)).length = 0
      · simp [hn]
      · simp [hn, Nat.pos_of_ne_zero hn]
    rw [hc]

theorem extract_polygon_eq_polyBranch (p : ℚ × ℚ) (rest : List (ℚ × ℚ)) :
    extract_point_from_geometry (mkGeo "Polygon" (JVal.arr [mkRing (p :: rest)])) =
      polyBranch (JVal.arr [mkRing (p :: rest)]) := rfl

theorem multiPoly_resolves_first (fp : JVal) (rest : List JVal) :
    extract_point_from_geometry (mkGeo "MultiPolygon" (JVal.arr (fp :: rest))) =
      extract_point_from_geometry (mkGeo "Polygon" fp) := by
  have hL : extract_point_from_geometry (mkGeo "MultiPolygon" (JVal.arr (fp :: rest))) =
      (if truthy fp then polyBranch fp else .ok none) := rfl
  have hR : extract_point_from_geometry (mkGeo "Polygon" fp) =
      (if truthy fp = false then .ok none else polyBranch fp) := rfl
  rw [hL, hR]
  by_cases h : truthy fp
  · simp [h]
  · rw [Bool.not_eq_true] at h
    simp [h]

def ringC3 : List (ℚ × ℚ) := [(0, 0), (30, 30), (0, 30)]

def geomC3 : JVal := mkGeo "Polygon" (JVal.arr [mkRing ringC3])

/-- C3 counterexample: on the polygon with outer ring
`[[0,0],[30,30],[0,30]]` (all vertices valid), the code returns the first
vertex `(0, 0)`, not the arithmetic centroid `(20, 10)` of the ring's valid
vertices that the claim promises. -/
theorem C3_counterexample :
    extract_point_from_geometry geomC3 = Except.ok (some (0, 0)) ∧
    spec_polygon_representative ringC3 = some (20, 10) ∧
    (some ((0 : ℚ), (0 : ℚ)) : Option (ℚ × ℚ)) ≠ some (20, 10) := by
  refine ⟨rfl, ?_, by decide⟩
  have h1 : List.filter (fun p => inRangeQ p.2 p.1) ringC3 = ringC3 := by decide
  simp only [spec_polygon_representative, h1]
  norm_num [ringC3, List.sum_cons, List.map_cons, List.sum_nil, List.map_nil]

/-- C3 (amended): for a polygon whose outer ring is a nonempty list of
numeric `[lon, lat]` vertices, `extract_point_from_geometry` returns the
FIRST vertex when it is within range; the arithmetic centroid of the ring's
valid vertices is only the fallback when the first vertex is out of range
(absent when the centroid computation finds zero valid vertices); a
multi-polygon resolves to its first polygon. -/
theorem C3_amended_first_vertex_primary :
    (∀ (p : ℚ × ℚ) (rest : List (ℚ × ℚ)), inRangeQ p.2 p.1 = true →
        extract_point_from_geometry
            (mkGeo "Polygon" (JVal.arr [mkRing (p :: rest)])) =
          Except.ok (some (p.2, p.1)))
  ∧ (∀ (p : ℚ × ℚ) (rest : List (ℚ × ℚ)), inRangeQ p.2 p.1 = false →
        extract_point_from_geometry
            (mkGeo "Polygon" (JVal.arr [mkRing (p :: rest)])) =
          Except.ok (spec_polygon_representative (p :: rest)))
  ∧ (∀ (fp : JVal) (rest : List JVal),
        extract_point_from_geometry (mkGeo "MultiPolygon" (JVal.arr (fp :: rest))) =
          extract_point_from_geometry (mkGeo "Polygon" fp)) := by
  refine ⟨?_, ?_, multiPoly_resolves_first⟩
  · intro p rest h
    rw [extract_polygon_eq_polyBranch, polyBranch_mkRing, if_pos h]
  · intro p rest h
    rw [extract_polygon_eq_polyBranch, polyBranch_mkRing, if_neg (by simp [h])]

/-! ### Claim C1 -/

theorem digitChar_inj : ∀ a : Nat, a < 10 → ∀ b : Nat, b < 10 →
    Char.ofNat (48 + a) = Char.ofNat (48 + b) → a = b := by decide

theorem pad4_data (n : Nat) :
    (pad4 n).data = [Char.ofNat (48 + (n / 1000) % 10), Char.ofNat (48 + (n / 100) % 10),
                     Char.ofNat (48 + (n / 10) % 10), Char.ofNat (48 + n % 10)] := rfl

theorem pad2_data (n : Nat) :
    (pad2 n).data = [Char.ofNat (48 + (n / 10) % 10), Char.ofNat (48 + n % 10)] := rfl

theorem str_ext (s t : String) (h : s.data = t.data) : s = t := by
  cases s; cases t; exact congrArg String.mk h

theorem string_data_append (s t : String) : (s ++ t).data = s.data ++ t.data := by
  cases s; cases t; rfl

theorem pad4_inj (y1 y2 : Nat) (h1 : y1 < 10000) (h2 : y2 < 10000)
    (h : (pad4 y1).data = (pad4 y2).data) : y1 = y2 := by
  rw [pad4_data, pad4_data] at h
  simp only [List.cons.injEq, and_true] at h
  obtain ⟨e1, e2, e3, e4⟩ := h
  have d1 := digitChar_inj _ (by omega) _ (by omega) e1
  have d2 := digitChar_inj _ (by omega) _ (by omega) e2
  have d3 := digitChar_inj _ (by omega) _ (by omega) e3
  have d4 := digitChar_inj _ (by omega) _ (by omega) e4
  omega

theorem pad2_inj (m1 m2 : Nat) (h1 : m1 < 100) (h2 : m2 < 100)
    (h : (pad2 m1).data = (pad2 m2).data) : m1 = m2 := by
  rw [pad2_data, pad2_data] at h
  simp only [List.cons.injEq, and_true] at h
  obtain ⟨e1, e2⟩ := h
  have d1 := digitChar_inj _ (by omega) _ (by omega) e1
  have d2 := digitChar_inj _ (by omega) _ (by omega) e2
  omega

theorem peel {α} {l1 l2 r1 r2 : List α} (hlen : l1.length = l2.length)
    (h : l1 ++ r1 = l2 ++ r2) : l1 = l2 ∧ r1 = r2 := List.append_inj h hlen

theorem pydt_ext (d1 d2 : PyDateTime)
    (h1 : d1.year = d2.year) (h2 : d1.month = d2.month) (h3 : d1.day = d2.day)
    (h4 : d1.hour = d2.hour) (h5 : d1.minute = d2.minute)
    (h6 : d1.second = d2.second) (h7 : d1.microsecond = d2.microsecond)
    (h8 : d1.tzMinutes = d2.tzMinutes) : d1 = d2 := by
  cases d1; cases d2
  simp only at h1 h2 h3 h4 h5 h6 h7 h8
  subst h1; subst h2; subst h3; subst h4; subst h5; subst h6; subst h7; subst h8
  rfl

/-- `isoformat` is injective on second-and-microsecond-zero, equal-offset,
in-range datetimes (the shape of rounded timestamps). -/
theorem isoformat_inj_rounded (d1 d2 : PyDateTime)
    (v1 : ValidDT d1) (v2 : ValidDT d2)
    (hs1 : d1.second = 0) (hus1 : d1.microsecond = 0)
    (hs2 : d2.second = 0) (hus2 : d2.microsecond = 0)
    (htz : d1.tzMinutes = d2.tzMinutes)
    (h : isoformat d1 = isoformat d2) : d1 = d2 := by
  unfold isoformat at h
  rw [if_pos hus1, if_pos hus2, htz] at h
  have hd := congrArg String.data h
  simp only [string_data_append, List.append_assoc] at hd
  obtain ⟨e1, hd⟩ := peel (by rw [pad4_data, pad4_data]; rfl) hd
  obtain ⟨_, hd⟩ := peel rfl hd
  obtain ⟨e2, hd⟩ := peel (by rw [pad2_data, pad2_data]; rfl) hd
  obtain ⟨_, hd⟩ := peel rfl hd
  obtain ⟨e3, hd⟩ := peel (by rw [pad2_data, pad2_data]; rfl) hd
  obtain ⟨_, hd⟩ := peel rfl hd
  obtain ⟨e4, hd⟩ := peel (by rw [pad2_data, pad2_data]; rfl) hd
  obtain ⟨_, hd⟩ := peel rfl hd
  obtain ⟨e5, hd⟩ := peel (by rw [pad2_data, pad2_data]; rfl) hd
  obtain ⟨_, vy1, _, vmo1, _, vda1, vh1, vmi1, _, _⟩ := v1
  obtain ⟨_, vy2, _, vmo2, _, vda2, vh2, vmi2, _, _⟩ := v2
  have hy := pad4_inj _ _ (by omega) (by omega) e1
  have hmo := pad2_inj _ _ (by omega) (by omega) e2
  have hda := pad2_inj _ _ (by omega) (by omega) e3
  have hhh := pad2_inj _ _ (by omega) (by omega) e4
  have hmi := pad2_inj _ _ (by omega) (by omega) e5
  exact pydt_ext d1 d2 hy hmo hda hhh hmi (hs1.trans hs2.symm)
    (hus1.trans hus2.symm) htz

theorem keyString_none (source t a : String) (e : PyDateTime) :
    keyString source none (some t) (some a) (some e) =
      source ++ "|" ++ t ++ "|" ++ a ++ "|" ++ isoformat (roundTo10 e) := rfl

theorem validDT_round (d : PyDateTime) (h : ValidDT d) : ValidDT (roundTo10 d) := by
  obtain ⟨h1, h2, h3, h4, h5, h6, h7, h8, _, _⟩ := h
  exact ⟨h1, h2, h3, h4, h5, h6, h7,
    by show d.minute - d.minute % 10 ≤ 59; omega,
    by show (0 : Nat) ≤ 59; decide,
    by show (0 : Nat) ≤ 999999; decide⟩

/-- C1: `generate_natural_key` is deterministic and key-shaped as claimed:
with a non-empty provider id, the key is the SHA-256 hex digest of
`source|providerId`; with no provider id, the digest of
`source|title|area|roundedTimestamp` where the rounding floors the minute
to the 10-minute bucket and zeroes seconds/microseconds; two timestamps in
the same bucket give the identical key; timestamps in different buckets
(e.g. a 1-second shift across a boundary) give different pre-digest key
strings — and, at a concrete 1-second boundary shift, different keys. -/
theorem C1_natural_key_deterministic :
    (∀ (source pid : String) (title area : Option String) (e : Option PyDateTime),
        pid ≠ "" →
        generate_natural_key source (some pid) title area e =
          sha256HexOfString (source ++ "|" ++ pid))
  ∧ (∀ (source t a : String) (e : PyDateTime),
        generate_natural_key source none (some t) (some a) (some e) =
          sha256HexOfString
            (source ++ "|" ++ t ++ "|" ++ a ++ "|" ++ isoformat (roundTo10 e)))
  ∧ (∀ (source : String) (title area : Option String) (e1 e2 : PyDateTime),
        roundTo10 e1 = roundTo10 e2 →
        generate_natural_key source none title area (some e1) =
          generate_natural_key source none title area (some e2))
  ∧ (∀ (source t a : String) (e1 e2 : PyDateTime), ValidDT e1 → ValidDT e2 →
        e1.tzMinutes = e2.tzMinutes → roundTo10 e1 ≠ roundTo10 e2 →
        keyString source none (some t) (some a) (some e1) ≠
          keyString source none (some t) (some a) (some e2))
  ∧ generate_natural_key "NWS" none (some "Flood Warning") (some "Alexandria")
        (some ⟨2026, 10, 12, 9, 59, 59, 0, some 0⟩) ≠
      generate_natural_key "NWS" none (some "Flood Warning") (some "Alexandria")
        (some ⟨2026, 10, 12, 10, 0, 0, 0, some 0⟩) := by
  refine ⟨?_, ?_, ?_, ?_, by set_option maxRecDepth 100000 in decide⟩
  · intro source pid title area e hpid
    have hne : truthyStrOpt (some pid) = true := by
      cases hE : pid.isEmpty
      · simp [truthyStrOpt, hE]
      · exact absurd ((String.isEmpty_iff pid).mp hE) hpid
    simp [generate_natural_key, keyString, hne]
  · intro source t a e
    exact congrArg sha256HexOfString (keyString_none source t a e)
  · intro source title area e1 e2 h
    simp only [generate_natural_key, keyString]
    rw [h]
  · intro source t a e1 e2 v1 v2 htz hne heq
    apply hne
    rw [keyString_none, keyString_none] at heq
    have hd := congrArg String.data heq
    simp only [string_data_append, List.append_assoc] at hd
    replace hd := (List.append_cancel_left hd : _)
    replace hd := (List.append_cancel_left hd : _)
    replace hd := (List.append_cancel_left hd : _)
    replace hd := (List.append_cancel_left hd : _)
    replace hd := (List.append_cancel_left hd : _)
    replace hd := (List.append_cancel_left hd : _)
    have hiso : isoformat (roundTo10 e1) = isoformat (roundTo10 e2) :=
      str_ext _ _ hd
    exact isoformat_inj_rounded (roundTo10 e1) (roundTo10 e2)
      (validDT_round e1 v1) (validDT_round e2 v2) rfl rfl rfl rfl htz hiso

theorem C1_witness :
    generate_natural_key "USGS_Earthquakes" (some "us6000abcd") none none none =
      sha256HexOfString ("USGS_Earthquakes" ++ "|" ++ "us6000abcd") ∧
    generate_natural_key "NWS" none (some "Flood") (some "Alex")
        (some ⟨2026, 10, 12, 9, 51, 7, 5, some 0⟩) =
      generate_natural_key "NWS" none (some "Flood") (some "Alex")
        (some ⟨2026, 10, 12, 9, 58, 59, 0, some 0⟩) ∧
    keyString "NWS" none (some "Flood") (some "Alex")
        (some ⟨2026, 10, 12, 9, 59, 59, 0, some 0⟩) ≠
      keyString "NWS" none (some "Flood") (some "Alex")
        (some ⟨2026, 10, 12, 10, 0, 0, 0, some 0⟩) :=
  ⟨C1_natural_key_deterministic.1 "USGS_Earthquakes" "us6000abcd" none none none
      (by decide),
   C1_natural_key_deterministic.2.2.1 "NWS" (some "Flood") (some "Alex") _ _
      (by decide),
   C1_natural_key_deterministic.2.2.2.1 "NWS" "Flood" "Alex" _ _
      (by decide) (by decide) rfl (by decide)⟩

/-! ### Claim C6 -/

theorem validate_ok_true_bounds (la lo : JVal)
    (h : validate_coordinates la lo = Except.ok true) :
    -90 ≤ toNumD la ∧ toNumD la ≤ 90 ∧ -180 ≤ toNumD lo ∧ toNumD lo ≤ 180 := by
  unfold validate_coordinates at h
  split at h
  · simp at h
  · split at h
    · exact Except.noConfusion h
    · rename_i qa hqa
      split at h
      · simp at h
      · rename_i hr1
        split at h
        · exact Except.noConfusion h
        · rename_i qo hqo
          split at h
          · simp at h
          · rename_i hr2
            push_neg at hr1 hr2
            simp only [toNumD, hqa, hqo, Option.getD_some]
            exact ⟨hr1.1, hr1.2, hr2.1, hr2.2⟩

theorem sumValid_bounds (pts : List JVal) : ∀ (tlat tlon : ℚ) (n : Nat) (S T : ℚ) (m : Nat),
    sumValid pts tlat tlon n = Except.ok (S, T, m) →
    -90 * n ≤ tlat → tlat ≤ 90 * n → -180 * n ≤ tlon → tlon ≤ 180 * n →
    -90 * m ≤ S ∧ S ≤ 90 * m ∧ -180 * m ≤ T ∧ T ≤ 180 * m := by
  induction pts with
  | nil =>
      intro tlat tlon n S T m h h1 h2 h3 h4
      simp only [sumValid, Except.ok.injEq, Prod.mk.injEq] at h
      obtain ⟨hS, hT, hm⟩ := h
      subst hS; subst hT; subst hm
      exact ⟨h1, h2, h3, h4⟩
  | cons p rest ih =>
      intro tlat tlon n S T m h h1 h2 h3 h4
      rcases p with _ | b | q | s | xs | kvs
      case arr =>
        rcases xs with _ | ⟨x, _ | ⟨y, cs⟩⟩
        · exact ih _ _ _ _ _ _ h h1 h2 h3 h4
        · exact ih _ _ _ _ _ _ h h1 h2 h3 h4
        · simp only [sumValid] at h
          cases hv : validate_coordinates y x with
          | error e => rw [hv] at h; exact Except.noConfusion h
          | ok b =>
              cases b with
              | false => rw [hv] at h; exact ih _ _ _ _ _ _ h h1 h2 h3 h4
              | true =>
                  rw [hv] at h
                  have hb := validate_ok_true_bounds y x hv
                  refine ih _ _ _ _ _ _ h ?_ ?_ ?_ ?_ <;> push_cast <;>
                    [linarith [hb.1]; linarith [hb.2.1]; linarith [hb.2.2.1];
                     linarith [hb.2.2.2]]
      all_goals exact ih _ _ _ _ _ _ h h1 h2 h3 h4

theorem centroidFallback_bounds (coords : JVal) (lat lon : ℚ)
    (h : centroidFallback coords = some (lat, lon)) :
    -90 ≤ lat ∧ lat ≤ 90 ∧ -180 ≤ lon ∧ lon ≤ 180 := by
  rcases coords with _ | b | q | s | xs | kvs
  case arr =>
    rcases xs with _ | ⟨ring, rest⟩
    · exact absurd h (by simp [centroidFallback])
    rcases ring with _ | b0 | q0 | s0 | pts | kv0
    case arr =>
      simp only [centroidFallback] at h
      cases hs : sumValid pts 0 0 0 with
      | error e => rw [hs] at h; simp at h
      | ok trip =>
          obtain ⟨S, T, m⟩ := trip
          rw [hs] at h
          replace h : (if 0 < m then some (S / (m : ℚ), T / (m : ℚ)) else none) =
              some (lat, lon) := h
          by_cases hm : 0 < m
          · rw [if_pos hm] at h
            have h' := Option.some.inj h
            rw [Prod.mk.injEq] at h'
            have hb := sumValid_bounds pts 0 0 0 S T m hs (by simp) (by simp)
              (by simp) (by simp)
            have hm' : (0 : ℚ) < m := by exact_mod_cast hm
            rw [← h'.1, ← h'.2]
            refine ⟨?_, ?_, ?_, ?_⟩
            · rw [le_div_iff₀ hm']; linarith [hb.1]
            · rw [div_le_iff₀ hm']; linarith [hb.2.1]
            · rw [le_div_iff₀ hm']; linarith [hb.2.2.1]
            · rw [div_le_iff₀ hm']; linarith [hb.2.2.2]
          · rw [if_neg hm] at h; exact Option.noConfusion h
    all_goals exact absurd h (by simp [centroidFallback])
  all_goals exact absurd h (by simp [centroidFallback])

theorem pointBranch_bounds (coords : JVal) (lat lon : ℚ)
    (h : pointBranch coords = Except.ok (some (lat, lon))) :
    -90 ≤ lat ∧ lat ≤ 90 ∧ -180 ≤ lon ∧ lon ≤ 180 := by
  rcases coords with _ | b | q | s | xs | kvs
  case arr =>
    rcases xs with _ | ⟨c0, _ | ⟨c1, rest⟩⟩
    · exact absurd (Except.ok.inj h) (by simp)
    · exact absurd (Except.ok.inj h) (by simp)
    · simp only [pointBranch] at h
      cases hv : validate_coordinates c1 c0 with
      | error e => rw [hv] at h; exact Except.noConfusion h
      | ok b =>
          cases b with
          | false => rw [hv] at h; exact absurd (Except.ok.inj h) (by simp)
          | true =>
              rw [hv] at h
              have hb := validate_ok_true_bounds c1 c0 hv
              have h' := Option.some.inj (Except.ok.inj h)
              rw [Prod.mk.injEq] at h'
              rw [← h'.1, ← h'.2]
              exact hb
  all_goals exact absurd (Except.ok.inj h) (by simp)

theorem polyBranch_bounds (coords : JVal) (lat lon : ℚ)
    (h : polyBranch coords = Except.ok (some (lat, lon))) :
    -90 ≤ lat ∧ lat ≤ 90 ∧ -180 ≤ lon ∧ lon ≤ 180 := by
  rcases coords with _ | b | q | s | xs | kvs
  case arr =>
    rcases xs with _ | ⟨r0, xs1⟩
    · exact centroidFallback_bounds _ lat lon (Except.ok.inj h)
    rcases r0 with _ | b0 | q0 | s0 | pts | kv0
    case arr =>
      rcases pts with _ | ⟨p0, pts1⟩
      · exact centroidFallback_bounds _ lat lon (Except.ok.inj h)
      rcases p0 with _ | b1 | q1 | s1 | cs | kv1
      case arr =>
        rcases cs with _ | ⟨x, _ | ⟨y, cs2⟩⟩
        · exact centroidFallback_bounds _ lat lon (Except.ok.inj h)
        · exact centroidFallback_bounds _ lat lon (Except.ok.inj h)
        · simp only [polyBranch] at h
          cases hv : validate_coordinates y x with
          | error e => rw [hv] at h; exact Except.noConfusion h
          | ok b2 =>
              cases b2 with
              | false =>
                  rw [hv] at h
                  exact centroidFallback_bounds _ lat lon (Except.ok.inj h)
              | true =>
                  rw [hv] at h
                  have hb := validate_ok_true_bounds y x hv
                  have h' := Option.some.inj (Except.ok.inj h)
                  rw [Prod.mk.injEq] at h'
                  rw [← h'.1, ← h'.2]
                  exact hb
      all_goals exact centroidFallback_bounds _ lat lon (Except.ok.inj h)
    all_goals exact centroidFallback_bounds _ lat lon (Except.ok.inj h)
  all_goals exact centroidFallback_bounds _ lat lon (Except.ok.inj h)

theorem multiPolyBranch_bounds (coords : JVal) (lat lon : ℚ)
    (h : multiPolyBranch coords = Except.ok (some (lat, lon))) :
    -90 ≤ lat ∧ lat ≤ 90 ∧ -180 ≤ lon ∧ lon ≤ 180 := by
  rcases coords with _ | b | q | s | xs | kvs
  case arr =>
    rcases xs with _ | ⟨fp, rest⟩
    · exact absurd (Except.ok.inj h) (by simp)
    · simp only [multiPolyBranch] at h
      by_cases ht : truthy fp
      · rw [if_pos ht] at h
        exact polyBranch_bounds fp lat lon h
      · rw [if_neg ht] at h
        exact absurd (Except.ok.inj h) (by simp)
  all_goals exact absurd (Except.ok.inj h) (by simp)

/-- C6: every (lat, lon) pair `extract_point_from_geometry` returns
satisfies -90 ≤ lat ≤ 90 and -180 ≤ lon ≤ 180 (any other run returns
absent or propagates a raised comparison); an out-of-range point is
rejected as absent, never clamped into range. -/
theorem C6_extracted_coordinates_validated :
    (∀ (g : JVal) (lat lon : ℚ),
        extract_point_from_geometry g = Except.ok (some (lat, lon)) →
        -90 ≤ lat ∧ lat ≤ 90 ∧ -180 ≤ lon ∧ lon ≤ 180)
  ∧ (∀ lon lat : ℚ, inRangeQ lat lon = false →
        extract_point_from_geometry
            (mkGeo "Point" (JVal.arr [JVal.num lon, JVal.num lat])) =
          Except.ok none) := by
  constructor
  · intro g lat lon h
    unfold extract_point_from_geometry at h
    split at h
    · exact absurd (Except.ok.inj h) (by simp)
    · split at h
      · -- object branch
        split at h
        · exact Except.noConfusion h
        · split at h
          · exact absurd (Except.ok.inj h) (by simp)
          · split at h
            · exact pointBranch_bounds _ lat lon h
            · split at h
              · exact polyBranch_bounds _ lat lon h
              · split at h
                · exact multiPolyBranch_bounds _ lat lon h
                · exact absurd (Except.ok.inj h) (by simp)
      · -- direct [lon, lat] list branch
        split at h
        · exact Except.noConfusion h
        · rename_i hv
          have hb := validate_ok_true_bounds _ _ hv
          have h' := Option.some.inj (Except.ok.inj h)
          rw [Prod.mk.injEq] at h'
          rw [← h'.1, ← h'.2]
          exact hb
        · exact absurd (Except.ok.inj h) (by simp)
      · exact absurd (Except.ok.inj h) (by simp)
  · intro lon lat h
    have hred : extract_point_from_geometry
        (mkGeo "Point" (JVal.arr [JVal.num lon, JVal.num lat])) =
        pointBranch (JVal.arr [JVal.num lon, JVal.num lat]) := rfl
    rw [hred]
    simp only [pointBranch, validate_num, h]

theorem C6_witness :
    extract_point_from_geometry
        (mkGeo "Point" (JVal.arr [JVal.num 200, JVal.num 10])) = Except.ok none :=
  C6_extracted_coordinates_validated.2 200 10 (by decide)

theorem C3_witness :
    extract_point_from_geometry
        (mkGeo "Polygon" (JVal.arr [mkRing ((5, 6) :: [(7, 8)])])) =
      Except.ok (some (6, 5)) ∧
    extract_point_from_geometry
        (mkGeo "Polygon" (JVal.arr [mkRing ((200, 0) :: [(30, 30), (0, 30)])])) =
      Except.ok (spec_polygon_representative ((200, 0) :: [(30, 30), (0, 30)])) :=
  ⟨C3_amended_first_vertex_primary.1 (5, 6) [(7, 8)] (by decide),
   C3_amended_first_vertex_primary.2.1 (200, 0) [(30, 30), (0, 30)] (by decide)⟩

end EAS
